import Mathlib

/-!
Verification development for the JunkDash vehicle-dynamics and cargo-containment
core.  The definitions below are a shallow embedding of the Truck and Game
classes (drivetrain, collision broker, cargo stabilizer).  Numeric state is
modelled with exact rationals; where the source calls `Math.sqrt` the embedding
uses `Real.sqrt` over the reals.  Where the source computes `Math.cos` and
`Math.sin` of an angle, the embedding takes the cosine/sine pair as parameters
`c`, `s` (constrained by `c ^ 2 + s ^ 2 = 1` where the geometry needs it), so
that all other arithmetic stays exact.
-/

namespace JunkDash

/-- Drivetrain constant: `this.maxSpeed = 110` (top speed, mph). -/
def maxSpeed : ℚ := 110

/-- Drivetrain constant: `this.baseAcceleration = 15`. -/
def baseAcceleration : ℚ := 15

/-- Drivetrain constant: `this.deceleration = 18` (coasting deceleration). -/
def deceleration : ℚ := 18

/-- Drivetrain constant: `this.brakeDeceleration = 60`. -/
def brakeDeceleration : ℚ := 60

/-- Drivetrain constant: `this.turnSpeed = 1.9`. -/
def turnSpeed : ℚ := 1.9

/-- Drivetrain constant: `this.rearAxleOffset = 2.5`. -/
def rearAxleOffset : ℚ := 2.5

/-- Upshift speed thresholds: `this.gearSpeeds = [0, 25, 50, 75, 95, 110]`. -/
def gearSpeeds : List ℚ := [0, 25, 50, 75, 95, 110]

/-- Downshift speed thresholds: `this.gearDownSpeeds = [0, 20, 45, 70, 90, 105]`. -/
def gearDownSpeeds : List ℚ := [0, 20, 45, 70, 90, 105]

/-- Gear-indexed acceleration: `this.gearAcceleration = [12, 12, 8, 5, 3, 1.5]`. -/
def gearAcceleration : List ℚ := [12, 12, 8, 5, 3, 1.5]

/-- Cargo bed length: `this.cargoLength = 4.8`. -/
def cargoLength : ℚ := 4.8

/-- Cargo bed width: `this.cargoWidth = 2.4`. -/
def cargoWidth : ℚ := 2.4

/-- Top surface of the cargo floor: `this.floorTopY = 1.25`. -/
def floorTopY : ℚ := 1.25

/-- Held-input flags sampled from the keyboard (`this.keys`). -/
structure Keys where
  w : Bool
  a : Bool
  s : Bool
  d : Bool
  space : Bool
deriving DecidableEq, Repr

/-- No keys held. -/
def noKeys : Keys := ⟨false, false, false, false, false⟩

/-- When input is disabled, `updateDriving` substitutes all-false flags:
`const effectiveKeys = inputEnabled ? this.keys : { w: false, ... }`. -/
def effectiveKeys (inputEnabled : Bool) (k : Keys) : Keys :=
  if inputEnabled then k else noKeys

/-- Gear-indexed acceleration lookup:
`this.gearAcceleration[Math.max(0, this.currentGear)] || this.baseAcceleration`.
A missing entry (JS `undefined`) and a zero entry are both falsy and fall back
to `baseAcceleration`. -/
def gearAccelFor (currentGear : ℤ) : ℚ :=
  let a := gearAcceleration.getD (max 0 currentGear).toNat 0
  if a = 0 then baseAcceleration else a

/-- Acceleration / deceleration branch of `Truck.updateDriving`
(lines 1161-1190): brake overrides forward/reverse; forward input brakes an
existing reverse speed before accelerating (and symmetrically); no input
coasts toward zero.  Sign convention: negative speed = forward. -/
def speedAfterInput (k : Keys) (autoBraking : Bool) (gearAccel speed dt : ℚ) : ℚ :=
  if k.space = true ∨ autoBraking = true then
    if speed > 0 then max 0 (speed - brakeDeceleration * dt)
    else if speed < 0 then min 0 (speed + brakeDeceleration * dt)
    else speed
  else if k.w = true then
    if speed > 0 then max 0 (speed - brakeDeceleration * dt)
    else speed - gearAccel * dt
  else if k.s = true then
    if speed < 0 then min 0 (speed + brakeDeceleration * dt)
    else speed + gearAccel * dt
  else
    if speed > 0 then max 0 (speed - deceleration * dt)
    else if speed < 0 then min 0 (speed + deceleration * dt)
    else speed

/-- Speed clamp of `Truck.updateDriving` line 1193:
`this.speed = Math.max(-this.maxSpeed, Math.min(this.maxSpeed * 0.3, this.speed))`. -/
def clampSpeed (v : ℚ) : ℚ :=
  max (-maxSpeed) (min (maxSpeed * 0.3) v)

/-- Speed-update step of `Truck.updateDriving` (lines 1133, 1144-1198).
Returns `(new auto-brake timer, post-clamp speed, committed speed)`:
the delta time is capped at 0.05 s, the auto-brake timer counts down, one of
the input branches updates the speed, the result is clamped, and finally a
sub-0.2 speed snaps to exactly zero whenever the auto-brake timer is zero. -/
def speedUpdate (autoBrakeTimer speed : ℚ) (k : Keys) (inputEnabled : Bool)
    (currentGear : ℤ) (deltaTime : ℚ) : ℚ × ℚ × ℚ :=
  let dt := min deltaTime 0.05
  let timer := if autoBrakeTimer > 0 then max 0 (autoBrakeTimer - dt) else autoBrakeTimer
  let autoBraking := decide (timer > 0)
  let keys := effectiveKeys inputEnabled k
  let raw := speedAfterInput keys autoBraking (gearAccelFor currentGear) speed dt
  let clamped := clampSpeed raw
  let final := if autoBraking = false ∧ timer = 0 ∧ |clamped| < 0.2 then 0 else clamped
  (timer, clamped, final)

/-- Hysteresis threshold used by `Truck.updateGear` for forward gear `g`:
the downshift table when the current gear is already `g` or higher, the
upshift table when the current gear is lower. -/
def gearThresholdMet (currentGear : ℤ) (absSpeed : ℚ) (g : ℕ) : Bool :=
  if currentGear ≥ (g : ℤ) then decide (absSpeed ≥ gearDownSpeeds.getD g 0)
  else decide (absSpeed ≥ gearSpeeds.getD g 0)

/-- Forward-gear selection loop of `Truck.updateGear` (lines 1480-1494):
`newGear` starts at 1 and is overwritten by every `g` from 1 to 5 whose
hysteresis threshold is met, so the result is the highest met gear
(or 1 when none is met). -/
def forwardGear (currentGear : ℤ) (absSpeed : ℚ) : ℤ :=
  ([1, 2, 3, 4, 5] : List ℕ).foldl
    (fun acc g => if gearThresholdMet currentGear absSpeed g then (g : ℤ) else acc) 1

/-- Automatic transmission `Truck.updateGear` (lines 1469-1499): gear −1 when
reversing (`speed > 0.5`), forward-gear selection when `speed < -0.5`,
neutral otherwise. -/
def updateGear (currentGear : ℤ) (speed : ℚ) : ℤ :=
  if speed > 0.5 then -1
  else if speed < -0.5 then forwardGear currentGear |speed|
  else 0

/-- Steering-relevant slice of `VehicleState`: heading, ground position,
turn rate, drift angle, smoothed turn input, drift flag. -/
structure TurnState where
  rotation : ℚ
  posX : ℚ
  posZ : ℚ
  turnRate : ℚ
  driftAngle : ℚ
  turnInput : ℚ
  isDrifting : Bool
deriving DecidableEq, Repr

/-- Turning / pivot / drift block of `Truck.updateDriving` (lines 1206-1288).
`sinq`/`cosq` stand for the source's `Math.sin`/`Math.cos`; `autoBraking` is
the already-computed auto-brake flag; `speed` is the post-clamp speed.  The
turn rate is zeroed, the smoothed turn input is lerped toward the raw input,
and when the vehicle is moving an angular delta (with optional drift boost)
is applied by rotating about the speed-blended rear pivot point. -/
def applyTurn (sinq cosq : ℚ → ℚ) (k : Keys) (autoBraking : Bool) (speed dt : ℚ)
    (st : TurnState) : TurnState :=
  let rawTurnInput : ℚ := (if k.a then 1 else 0) + (if k.d then -1 else 0)
  let turnLerp := min 1 (dt * 12)
  let newTurnInput := st.turnInput + (rawTurnInput - st.turnInput) * turnLerp
  let isTurning := decide (|rawTurnInput| > 0.01)
  let isBraking := k.space || k.s || autoBraking
  let canDrift := isBraking && isTurning && decide (|speed| > maxSpeed * 0.3)
  let st1 : TurnState := { st with turnRate := 0, turnInput := newTurnInput }
  if |speed| > 0.1 then
    let turnFactor : ℚ := if speed < 0 then -1 else 1
    let absSpeed := |speed|
    let effectiveTurnSpeed := turnSpeed * min 1 (absSpeed / 20)
    let effectivePivotOffset := rearAxleOffset * min 1 (absSpeed / 15)
    let pivotX := st1.posX + sinq st1.rotation * effectivePivotOffset
    let pivotZ := st1.posZ + cosq st1.rotation * effectivePivotOffset
    let inputScale := min 1 |newTurnInput|
    let turned : TurnState × ℚ :=
      if canDrift then
        if newTurnInput > 0.01 then
          ({ st1 with
              isDrifting := true,
              turnRate := effectiveTurnSpeed * turnFactor * 1.3 * inputScale,
              driftAngle := min 0.15 (st1.driftAngle + dt * 0.8) },
            effectiveTurnSpeed * dt * turnFactor * 1.3 * inputScale)
        else if newTurnInput < -0.01 then
          ({ st1 with
              isDrifting := true,
              turnRate := -(effectiveTurnSpeed * turnFactor * 1.3 * inputScale),
              driftAngle := max (-0.15) (st1.driftAngle - dt * 0.8) },
            -(effectiveTurnSpeed * dt * turnFactor * 1.3 * inputScale))
        else ({ st1 with isDrifting := true }, 0)
      else
        if newTurnInput > 0.01 then
          ({ st1 with
              isDrifting := false,
              turnRate := effectiveTurnSpeed * turnFactor * inputScale },
            effectiveTurnSpeed * dt * turnFactor * inputScale)
        else if newTurnInput < -0.01 then
          ({ st1 with
              isDrifting := false,
              turnRate := -(effectiveTurnSpeed * turnFactor * inputScale) },
            -(effectiveTurnSpeed * dt * turnFactor * inputScale))
        else ({ st1 with isDrifting := false }, 0)
    let st2 := turned.1
    let deltaRotation := turned.2
    if deltaRotation ≠ 0 then
      let newRotation := st2.rotation + deltaRotation
      { st2 with
          rotation := newRotation,
          posX := pivotX - sinq newRotation * effectivePivotOffset,
          posZ := pivotZ - cosq newRotation * effectivePivotOffset }
    else st2
  else { st1 with isDrifting := false }

/-- Collision veto on rotation (`Truck.updateDriving` lines 1290-1303): if the
heading changed this frame and `checkMeshCollision` reports a collision at the
rotated pose, heading and position are restored to their pre-attempt values
and the turn rate and drift angle are zeroed. -/
def rotationVeto (collides : ℚ → ℚ → ℚ → Bool) (prev mid : TurnState) : TurnState :=
  if mid.rotation ≠ prev.rotation then
    if collides mid.posX mid.posZ mid.rotation then
      { mid with
          rotation := prev.rotation, posX := prev.posX, posZ := prev.posZ,
          turnRate := 0, driftAngle := 0 }
    else mid
  else mid

/-- Rotation attempt followed by the collision veto. -/
def turnStep (sinq cosq : ℚ → ℚ) (collides : ℚ → ℚ → ℚ → Bool) (k : Keys)
    (autoBraking : Bool) (speed dt : ℚ) (st : TurnState) : TurnState :=
  rotationVeto collides st (applyTurn sinq cosq k autoBraking speed dt st)

/-- Keys with only A (steer left) held. -/
def keysA : Keys := ⟨false, true, false, false, false⟩

/-- Pre-frame steering state used in the C5 counterexample: the vehicle
carries a residual drift angle of 0.1 from earlier frames. -/
def turnStateC5 : TurnState :=
  { rotation := 0, posX := 0, posZ := 0, turnRate := 5, driftAngle := 0.1,
    turnInput := 1, isDrifting := false }

/-- Pose of the truck root node: `this.root.position.x/.z`, `this.root.rotation.y`. -/
structure RootPose where
  x : ℚ
  z : ℚ
  rotY : ℚ
deriving DecidableEq, Repr

/-- Memoization record `this._collisionCache` of `Truck.checkMeshCollision`. -/
structure CacheEntry where
  frameId : ℕ
  posX : ℚ
  posZ : ℚ
  rotY : ℚ
  result : Bool
deriving DecidableEq, Repr

/-- Full-test path of `Truck.checkMeshCollision` (lines 901-1005): the root
pose is saved, the candidate pose is applied, the intersection tests (the
`test` oracle, which only reads the applied pose) run, and the saved pose is
restored unconditionally before the result is cached and returned. -/
def checkMeshCollisionFull (test : ℚ → ℚ → ℚ → Bool) (frameId : ℕ) (root : RootPose)
    (posX posZ rotY : ℚ) : Bool × RootPose × Option CacheEntry :=
  let oldX := root.x
  let oldZ := root.z
  let oldRotY := root.rotY
  let moved : RootPose := { x := posX, z := posZ, rotY := rotY }
  let collision := test moved.x moved.z moved.rotY
  let restored : RootPose := { x := oldX, z := oldZ, rotY := oldRotY }
  (collision, restored,
    some { frameId := frameId, posX := posX, posZ := posZ, rotY := rotY, result := collision })

/-- `Truck.checkMeshCollision` (lines 890-1006): early return when the scene
manager is absent, the per-frame memoization hit path, and otherwise the full
save/test/restore path.  Returns (result, root pose after the call, cache
after the call). -/
def checkMeshCollision (hasSceneManager : Bool) (test : ℚ → ℚ → ℚ → Bool) (frameId : ℕ)
    (root : RootPose) (cache : Option CacheEntry) (posX posZ rotY : ℚ) :
    Bool × RootPose × Option CacheEntry :=
  if hasSceneManager = false then (false, root, cache)
  else
    match cache with
    | some cc =>
      if cc.frameId = frameId ∧ cc.posX = posX ∧ cc.posZ = posZ ∧ cc.rotY = rotY then
        (cc.result, root, cache)
      else checkMeshCollisionFull test frameId root posX posZ rotY
    | none => checkMeshCollisionFull test frameId root posX posZ rotY

/-- Truck perimeter half-width used by `Truck.checkCollision`: cargo wall outer
edge, `1.3` m. -/
def truckHalfWidth : ℚ := 1.3

/-- Truck perimeter front extent used by `Truck.checkCollision`: `-4.3` m. -/
def truckFront : ℚ := -4.3

/-- Truck perimeter back extent used by `Truck.checkCollision`: `2.4` m. -/
def truckBack : ℚ := 2.4

/-- The 36 perimeter sample points of `Truck.checkCollision` (lines 663-706):
four corners, seven points along the front edge, seven along the back edge,
and nine along each side (asymmetric front/back extents). -/
def checkPoints : List (ℚ × ℚ) :=
  [(-truckHalfWidth, truckFront), (truckHalfWidth, truckFront),
   (-truckHalfWidth, truckBack), (truckHalfWidth, truckBack),
   (-truckHalfWidth * 0.75, truckFront), (-truckHalfWidth * 0.5, truckFront),
   (-truckHalfWidth * 0.25, truckFront), (0, truckFront),
   (truckHalfWidth * 0.25, truckFront), (truckHalfWidth * 0.5, truckFront),
   (truckHalfWidth * 0.75, truckFront),
   (-truckHalfWidth * 0.75, truckBack), (-truckHalfWidth * 0.5, truckBack),
   (-truckHalfWidth * 0.25, truckBack), (0, truckBack),
   (truckHalfWidth * 0.25, truckBack), (truckHalfWidth * 0.5, truckBack),
   (truckHalfWidth * 0.75, truckBack),
   (-truckHalfWidth, truckFront * 0.85), (-truckHalfWidth, truckFront * 0.7),
   (-truckHalfWidth, truckFront * 0.55), (-truckHalfWidth, truckFront * 0.4),
   (-truckHalfWidth, truckFront * 0.25), (-truckHalfWidth, truckFront * 0.1),
   (-truckHalfWidth, 0), (-truckHalfWidth, truckBack * 0.33), (-truckHalfWidth, truckBack * 0.66),
   (truckHalfWidth, truckFront * 0.85), (truckHalfWidth, truckFront * 0.7),
   (truckHalfWidth, truckFront * 0.55), (truckHalfWidth, truckFront * 0.4),
   (truckHalfWidth, truckFront * 0.25), (truckHalfWidth, truckFront * 0.1),
   (truckHalfWidth, 0), (truckHalfWidth, truckBack * 0.33), (truckHalfWidth, truckBack * 0.66)]

/-- Truck-local point to world transform used throughout `Truck.checkCollision`:
`worldX = baseX + px * cos - pz * sin`, `worldZ = baseZ + px * sin + pz * cos`. -/
def pointWorld (baseX baseZ px pz c s : ℚ) : ℚ × ℚ :=
  (baseX + px * c - pz * s, baseZ + px * s + pz * c)

/-- One enclosure wall rectangle (`sceneManager.destinationWallBounds` entry). -/
structure WallBound where
  minX : ℚ
  maxX : ℚ
  minZ : ℚ
  maxZ : ℚ
deriving DecidableEq, Repr

/-- Point-in-wall test of `Truck.countWallCollisions` (lines 841-854): bounds
are reordered with min/max and the wall buffer is zero, so the test is a
closed-rectangle membership. -/
def inWallBound (wall : WallBound) (wx wz : ℚ) : Bool :=
  let minX := min wall.minX wall.maxX
  let maxX := max wall.minX wall.maxX
  let minZ := min wall.minZ wall.maxZ
  let maxZ := max wall.minZ wall.maxZ
  decide (minX ≤ wx ∧ wx ≤ maxX ∧ minZ ≤ wz ∧ wz ≤ maxZ)

/-- `Truck.countWallCollisions` (lines 826-881): for every wall and every
perimeter point, counts the point at the candidate pose and at the current
pose that lie inside the wall rectangle.  Returns
`(newCollisions, currentCollisions)`. -/
def countWallCollisions (walls : List WallBound) (newX newZ curX curZ c s : ℚ) : ℕ × ℕ :=
  walls.foldl
    (fun acc wall =>
      checkPoints.foldl
        (fun acc2 p =>
          let nw := pointWorld newX newZ p.1 p.2 c s
          let cw := pointWorld curX curZ p.1 p.2 c s
          (if inWallBound wall nw.1 nw.2 then acc2.1 + 1 else acc2.1,
           if inWallBound wall cw.1 cw.2 then acc2.2 + 1 else acc2.2))
        acc)
    (0, 0)

/-- One house obstacle as seen by `Truck.checkCollision`: position, half
extents and the cosine/sine of `-houseRotation` (the source computes
`Math.cos(-houseRot)` and `Math.sin(-houseRot)`). -/
structure House where
  disposed : Bool
  posX : ℚ
  posZ : ℚ
  halfWidth : ℚ
  halfDepth : ℚ
  cosR : ℚ
  sinR : ℚ
deriving DecidableEq, Repr

/-- Point-in-house test of `Truck.checkCollision` (lines 755-795): the world
point is transformed into the house's local frame and compared strictly
against the half extents. -/
def pointInHouse (h : House) (wx wz : ℚ) : Bool :=
  let relX := wx - h.posX
  let relZ := wz - h.posZ
  let lx := relX * h.cosR - relZ * h.sinR
  let lz := relX * h.sinR + relZ * h.cosR
  decide (|lx| < h.halfWidth ∧ |lz| < h.halfDepth)

/-- House section of `Truck.checkCollision` (lines 722-800): disposed houses
are skipped, houses farther than the 20 m query radius from the candidate
position are skipped, and for the rest every perimeter point is tested at the
candidate pose and at the current pose.  Returns
`(newCollisions, currentCollisions)`. -/
def countHouseCollisions (houses : List House) (newX newZ curX curZ c s : ℚ) : ℕ × ℕ :=
  houses.foldl
    (fun acc h =>
      if h.disposed = true then acc
      else if (h.posX - newX) ^ 2 + (h.posZ - newZ) ^ 2 > 20 ^ 2 then acc
      else
        checkPoints.foldl
          (fun acc2 p =>
            let nw := pointWorld newX newZ p.1 p.2 c s
            let cw := pointWorld curX curZ p.1 p.2 c s
            (if pointInHouse h nw.1 nw.2 then acc2.1 + 1 else acc2.1,
             if pointInHouse h cw.1 cw.2 then acc2.2 + 1 else acc2.2))
          acc)
    (0, 0)

/-- Combined wall + house penetration counts of `Truck.checkCollision`
(lines 708-800).  `houses = none` models an absent `housesByTile` collection,
in which case the whole house section (including the pickup house) is
skipped. -/
def collisionCounts (walls : List WallBound) (houses : Option (List House))
    (newX newZ curX curZ c s : ℚ) : ℕ × ℕ :=
  let w := countWallCollisions walls newX newZ curX curZ c s
  match houses with
  | none => w
  | some hs =>
    let h := countHouseCollisions hs newX newZ curX curZ c s
    (w.1 + h.1, w.2 + h.2)

/-- Decision of `Truck.checkCollision` (lines 802-822): when the current pose
already penetrates (`currentCollisions > 0`), the move is blocked exactly when
`newCollisions >= currentCollisions`; otherwise any penetration at the
candidate pose blocks.  `true` means the move is rejected. -/
def checkCollision (walls : List WallBound) (houses : Option (List House))
    (newX newZ curX curZ c s : ℚ) : Bool :=
  let counts := collisionCounts walls houses newX newZ curX curZ c s
  if counts.2 > 0 then decide (counts.1 ≥ counts.2)
  else decide (counts.1 > 0)

/-- A wall rectangle that contains the whole truck perimeter at the origin,
used to build a stuck pose for the C6 counterexample. -/
def wallAllC6 : WallBound := { minX := -100, maxX := 100, minZ := -100, maxZ := 100 }

/-- One placed item as seen by the fallen-item pass of `Game.update`
(part_002 lines 378-418), described by its truck-local coordinates (the
source computes them from the mesh world position, or reads them directly
when the mesh is parented to the truck root). -/
structure PlacedItem where
  isFallen : Bool
  hasMesh : Bool
  localX : ℚ
  localZ : ℚ
  localY : ℚ
  halfHeight : ℚ
deriving DecidableEq, Repr

/-- Fall test of `Game.update` (lines 381-412): a not-yet-fallen item with a
mesh is newly fallen when its bottom is more than 0.3 m below the floor, or it
is outside the cargo area laterally by 0.5 m, past the front by 0.5 m, or past
the open back by 1 m. -/
def itemFallsNow (floorY halfW halfL : ℚ) (it : PlacedItem) : Bool :=
  (!it.isFallen && it.hasMesh) &&
    (decide (it.localY - it.halfHeight < floorY - 0.3) ||
     decide (|it.localX| > halfW + 0.5) ||
     decide (it.localZ < -halfL - 0.5) ||
     decide (it.localZ > halfL + 1))

/-- Marking step of the fallen-item pass: `item.isFallen = true` when the fall
test fires, otherwise the item is untouched. -/
def markFallen (floorY halfW halfL : ℚ) (it : PlacedItem) : PlacedItem :=
  if itemFallsNow floorY halfW halfL it = true then { it with isFallen := true } else it

/-- Number of items newly marked fallen in one `Game.update` pass
(`newlyFallen` in the source). -/
def newlyFallenCount (floorY halfW halfL : ℚ) (items : List PlacedItem) : ℕ :=
  (items.filter (fun it => itemFallsNow floorY halfW halfL it)).length

/-- Fallen-item pass of `Game.update` (lines 378-423) combined with the
`Game.onItemFellOut` latch (lines 507-522): items are marked, and the
callback body runs once when `newlyFallen > 0` and the round's
`fallOutTriggered` latch is still clear — `onItemFellOut` returns early
otherwise and sets the latch when it does run.  Returns
`(updated items, updated latch, number of effective callback runs)`. -/
def gameFallCheck (floorY halfW halfL : ℚ) (items : List PlacedItem)
    (fallOutTriggered : Bool) : List PlacedItem × Bool × ℕ :=
  let items2 := items.map (markFallen floorY halfW halfL)
  let newlyFallen := newlyFallenCount floorY halfW halfL items
  let fired := decide (newlyFallen > 0) && !fallOutTriggered
  (items2, fallOutTriggered || fired, if fired = true then 1 else 0)

/-- Two distinct items that both newly fall out sideways, for the C8
counterexample. -/
def fallenPairC8 : List PlacedItem :=
  [{ isFallen := false, hasMesh := true, localX := 5, localZ := 0, localY := 2,
     halfHeight := 0.3 },
   { isFallen := false, hasMesh := true, localX := -5, localZ := 0, localY := 2,
     halfHeight := 0.3 }]

/-- One loaded cargo item as seen by `Truck.updateLoadedItems` and
`Truck.enforceItemBounds`.  `pendingPhysics` models `createPhysicsAt > 0`
(body not yet created), `pendingReady` the elapsed creation delay together
with the `_pendingPhysics` parameters, `becomingDynamic` models
`becomeDynamicAt > 0` and `becomeDynamicReady` its elapsed settle window.
`posX`/`posY`/`posZ` is the mesh world position, `localX`/`localZ` the stored
truck-local offset, `halfX`/`halfZ` the half extents of `item.size`. -/
structure CargoItem where
  hasMesh : Bool
  hasBody : Bool
  pendingPhysics : Bool
  pendingReady : Bool
  becomingDynamic : Bool
  becomeDynamicReady : Bool
  isFallen : Bool
  posX : ℚ
  posY : ℚ
  posZ : ℚ
  localX : ℚ
  localZ : ℚ
  halfX : ℚ
  halfZ : ℚ
deriving DecidableEq, Repr

/-- Inner edge of the side walls: `this.cargoWidth / 2` (1.2 m). -/
def wallInnerX : ℚ := cargoWidth / 2

/-- Inner edge of the front wall: `-this.cargoLength / 2` (−2.4 m, cab side). -/
def wallInnerFrontZ : ℚ := -(cargoLength / 2)

/-- Safety margin from the walls in `Truck.enforceItemBounds`: 0.1 m. -/
def safeMargin : ℚ := 0.1

/-- Fallen outer bound sideways: `cargoWidth / 2 + 1.0`. -/
def outerHalfX : ℚ := cargoWidth / 2 + 1.0

/-- Fallen outer bound past the front wall: `-cargoLength / 2 - 1.0`. -/
def outerFrontZ : ℚ := -(cargoLength / 2) - 1.0

/-- Fallen outer bound past the open back: `cargoLength / 2 + 2.0`. -/
def outerBackZ : ℚ := cargoLength / 2 + 2.0

/-- Fallen height threshold: `this.floorTopY - 0.5`. -/
def fallFloorY : ℚ := floorTopY - 0.5

/-- Truck-local X coordinate of an item's mesh position, as computed by both
item passes: `localX = dx * c + dz * s` with `dx`, `dz` the offsets from the
truck centre.  The pre-step pass passes `c = cos(rot)`, `s = sin(rot)`; the
post-step pass passes `c = cos(-rot)`, `s = sin(-rot)`; both are opaque
parameters here. -/
def itemLocalX (tx tz c s : ℚ) (it : CargoItem) : ℚ :=
  (it.posX - tx) * c + (it.posZ - tz) * s

/-- Truck-local Z coordinate of an item's mesh position:
`localZ = -dx * s + dz * c`. -/
def itemLocalZ (tx tz c s : ℚ) (it : CargoItem) : ℚ :=
  -(it.posX - tx) * s + (it.posZ - tz) * c

/-- Breach test of `Truck.enforceItemBounds` (lines 2096-2127): the item's
left edge past the left wall, right edge past the right wall, or front edge
past the front wall (the back is open). -/
def enforceCorrected (tx tz c s : ℚ) (it : CargoItem) : Bool :=
  let lX := itemLocalX tx tz c s it
  let lZ := itemLocalZ tx tz c s it
  decide (lX - it.halfX < -wallInnerX) || decide (lX + it.halfX > wallInnerX) ||
    decide (lZ - it.halfZ < wallInnerFrontZ)

/-- The teleport of `Truck.enforceItemBounds` fires when a breach was detected
and the item has a physics body (line 2129). -/
def enforceBreachTeleported (tx tz c s : ℚ) (it : CargoItem) : Bool :=
  enforceCorrected tx tz c s it && it.hasBody

/-- Corrected local X of `Truck.enforceItemBounds` (lines 2096-2116): a
breached left edge snaps to `-wallInnerX + halfX + safeMargin`, and a
breached right edge snaps to `wallInnerX - halfX - safeMargin` (the source
runs both checks in sequence, the right-wall assignment overwriting the
left-wall one); otherwise the local X is unchanged. -/
def enforceNewLocalX (halfX lX : ℚ) : ℚ :=
  if lX + halfX > wallInnerX then wallInnerX - halfX - safeMargin
  else if lX - halfX < -wallInnerX then -wallInnerX + halfX + safeMargin
  else lX

/-- Corrected local Z of `Truck.enforceItemBounds` (lines 2118-2127): a
breached front edge snaps to `wallInnerFrontZ + halfZ + safeMargin`; the open
back is never corrected. -/
def enforceNewLocalZ (halfZ lZ : ℚ) : ℚ :=
  if lZ - halfZ < wallInnerFrontZ then wallInnerFrontZ + halfZ + safeMargin else lZ

/-- Way-outside test of `Truck.enforceItemBounds` (lines 2156-2161), evaluated
on the pre-correction local coordinates and the mesh height. -/
def enforceWayOutside (tx tz c s : ℚ) (it : CargoItem) : Bool :=
  let lX := itemLocalX tx tz c s it
  let lZ := itemLocalZ tx tz c s it
  decide (|lX| > outerHalfX + it.halfX) || decide (lZ < outerFrontZ - it.halfZ) ||
    decide (lZ > outerBackZ + it.halfZ) || decide (it.posY < fallFloorY)

/-- Per-item body of `Truck.enforceItemBounds` (lines 2013-2171), position and
fallen-flag part: items without a mesh or already fallen are skipped, items
still awaiting physics-body creation are skipped, otherwise the local
position is computed, a breached item with a body is teleported to the
corrected local position (converted back to world coordinates), the stored
local offset is updated to the pre-correction value, and the way-outside test
sets the fallen flag.  The velocity part of the same loop body is modelled by
`enforceItemVelocity`; it touches neither positions nor the fallen flag. -/
def enforceItemBoundsStep (tx tz c s : ℚ) (it : CargoItem) : CargoItem :=
  if it.hasMesh = false ∨ it.isFallen = true then it
  else if it.pendingPhysics = true then it
  else
    let lX := itemLocalX tx tz c s it
    let lZ := itemLocalZ tx tz c s it
    let newLX := enforceNewLocalX it.halfX lX
    let newLZ := enforceNewLocalZ it.halfZ lZ
    let px := if enforceBreachTeleported tx tz c s it = true
      then tx + newLX * c - newLZ * s else it.posX
    let pz := if enforceBreachTeleported tx tz c s it = true
      then tz + newLX * s + newLZ * c else it.posZ
    { it with
        posX := px, posZ := pz, localX := lX, localZ := lZ,
        isFallen := enforceWayOutside tx tz c s it }

/-- The post-step pass `Truck.enforceItemBounds` over the loaded-item list:
the loop body only reads the truck pose and mutates the current item, so the
pass is the per-item step mapped over the list. -/
def enforceItemBounds (tx tz c s : ℚ) (items : List CargoItem) : List CargoItem :=
  items.map (enforceItemBoundsStep tx tz c s)

/-- Physics creation of `Truck.updateLoadedItems` (lines 1656-1703): the body
is created (kinematic, velocities zeroed), the pending state is cleared and
the item is scheduled to become dynamic after the settle delay. -/
def updateItemCreate (it : CargoItem) : CargoItem :=
  { it with
      hasBody := true, pendingPhysics := false, pendingReady := false,
      becomingDynamic := true }

/-- Kinematic-to-dynamic transition of `Truck.updateLoadedItems`
(lines 1706-1714): once the settle window elapsed, the body becomes dynamic
(velocities zeroed again) and the schedule is cleared. -/
def updateItemBecomeDynamic (it : CargoItem) : CargoItem :=
  if it.hasBody = true ∧ it.becomingDynamic = true ∧ it.becomeDynamicReady = true then
    { it with becomingDynamic := false, becomeDynamicReady := false }
  else it

/-- Settle drive of `Truck.updateLoadedItems` (lines 1716-1756): an item that
is pending or still kinematic is moved with the truck by converting its
stored local offset back to world coordinates. -/
def updateItemSettle (tx tz c s : ℚ) (it1 : CargoItem) : CargoItem :=
  { it1 with
      posX := tx + it1.localX * c - it1.localZ * s,
      posZ := tz + it1.localX * s + it1.localZ * c }

/-- Main branch of `Truck.updateLoadedItems` (lines 1758-1924), position and
flag part: the local position is recomputed and stored when a physics
aggregate exists, the hard position clamp (lines 1798-1848) forces a
non-fallen item back inside the bounds, and the fallen test
(lines 1912-1924) runs on the pre-clamp local coordinates. -/
def updateItemMain (tx tz c s : ℚ) (it1 : CargoItem) : CargoItem :=
  let lX := (it1.posX - tx) * c + (it1.posZ - tz) * s
  let lZ := -(it1.posX - tx) * s + (it1.posZ - tz) * c
  let it2 := if it1.hasBody = true then { it1 with localX := lX, localZ := lZ } else it1
  let maxLocalX := cargoWidth / 2 - it2.halfX - 0.05
  let minLocalZ := -(cargoLength / 2) + it2.halfZ + 0.05
  let clampedLX0 := if lX < -maxLocalX then -maxLocalX else lX
  let clampedLX := if lX > maxLocalX then maxLocalX else clampedLX0
  let clampedLZ := if lZ < minLocalZ then minLocalZ else lZ
  let it3 := if (lX < -maxLocalX ∨ lX > maxLocalX ∨ lZ < minLocalZ) ∧ it2.isFallen = false
    then { it2 with
        posX := tx + clampedLX * c - clampedLZ * s,
        posZ := tz + clampedLX * s + clampedLZ * c }
    else it2
  { it3 with
      isFallen := it3.isFallen ||
        (decide (it3.posY < floorTopY - 0.5) ||
          decide (|lX| > cargoWidth / 2 + 1 + it3.halfX) ||
          decide (lZ > cargoLength / 2 + 1 + it3.halfZ)) }

/-- Per-item body of the pre-step pass `Truck.updateLoadedItems`
(lines 1646-1924), position and flag part: items without a mesh are skipped;
a pending item whose creation delay elapsed gets its body (kinematic, then
scheduled to become dynamic); a settling item (pending or still kinematic) is
driven from its stored local offset so it rides with the truck; otherwise the
local position is recomputed, stored when a physics aggregate exists, and the
hard position clamp (lines 1798-1848) forces a non-fallen item back inside
the bounds before the fallen test (lines 1912-1924) runs on the
pre-clamp local coordinates.  Motion-type bookkeeping, damping and the
velocity manipulations of the same loop body touch neither positions nor the
fallen flag and are not modelled here. -/
def updateItemStep (tx tz c s : ℚ) (it : CargoItem) : CargoItem :=
  if it.hasMesh = false then it
  else if it.hasBody = false ∧ it.pendingPhysics = true ∧ it.pendingReady = true then
    updateItemCreate it
  else
    let it1 := updateItemBecomeDynamic it
    if it1.pendingPhysics = true ∨ it1.becomingDynamic = true then
      updateItemSettle tx tz c s it1
    else updateItemMain tx tz c s it1

/-- A velocity vector of a rigid body, in exact real arithmetic. -/
structure V3 where
  x : ℝ
  y : ℝ
  z : ℝ

/-- Linear-velocity cap of `Truck.enforceItemBounds` (lines 2031-2056): if the
horizontal velocity relative to the truck exceeds
`MAX_REL_LINEAR_VELOCITY = 8` m/s it is rescaled onto the 8 m/s circle around
the truck velocity, and a vertical component beyond
`MAX_VERTICAL_VELOCITY = 4` m/s is clamped to ±4. -/
noncomputable def capLinearVelocityPost (tvx tvz : ℝ) (v : V3) : V3 :=
  let relX := v.x - tvx
  let relZ := v.z - tvz
  let relSpeed := Real.sqrt (relX ^ 2 + relZ ^ 2)
  { x := if relSpeed > 8 then tvx + relX * (8 / relSpeed) else v.x,
    y := if |v.y| > 4 then (if v.y < 0 then -4 else 4) else v.y,
    z := if relSpeed > 8 then tvz + relZ * (8 / relSpeed) else v.z }

/-- Angular-velocity cap of `Truck.enforceItemBounds` (lines 2058-2073): an
angular speed beyond `MAX_ANGULAR_VELOCITY = 3` rad/s is rescaled to 3. -/
noncomputable def capAngularVelocityPost (w : V3) : V3 :=
  let angSpeed := Real.sqrt (w.x ^ 2 + w.y ^ 2 + w.z ^ 2)
  if angSpeed > 3 then
    { x := w.x * (3 / angSpeed), y := w.y * (3 / angSpeed), z := w.z * (3 / angSpeed) }
  else w

/-- Velocity outcome of the per-item body of `Truck.enforceItemBounds` for an
item with linear velocity `v` and angular velocity `w`: skipped items (no
mesh, fallen, or awaiting body creation) and items without a body keep their
velocities; otherwise both caps are applied, and if the breach teleport fires
the body's velocities are zeroed (lines 2141-2151). -/
noncomputable def enforceItemVelocity (tx tz c s : ℚ) (it : CargoItem) (tvx tvz : ℝ)
    (v w : V3) : V3 × V3 :=
  if it.hasMesh = false ∨ it.isFallen = true ∨ it.pendingPhysics = true ∨
      it.hasBody = false then (v, w)
  else if enforceBreachTeleported tx tz c s it = true then (⟨0, 0, 0⟩, ⟨0, 0, 0⟩)
  else (capLinearVelocityPost tvx tvz v, capAngularVelocityPost w)

/-- Item with a right-wall breach used by the C1 witness: local X 1.5, half
width 0.3, so its right edge (1.8) is past the wall (1.2). -/
def itemBreachedC1 : CargoItem :=
  { hasMesh := true, hasBody := true, pendingPhysics := false, pendingReady := false,
    becomingDynamic := false, becomeDynamicReady := false, isFallen := false,
    posX := 1.5, posY := 2, posZ := 0, localX := 0, localZ := 0,
    halfX := 0.3, halfZ := 0.3 }

/-- Expected result of the post-step pass on `itemBreachedC1` at truck pose
`(0, 0)` with identity rotation: teleported to local X
`wallInnerX - halfX - safeMargin = 0.8`, stored locals updated, not fallen. -/
def itemBreachedC1Out : CargoItem :=
  { itemBreachedC1 with posX := 0.8, posZ := 0, localX := 1.5, localZ := 0 }

/-- Item with the Dining Table's footprint (size.x = 3.95, so half width
1.975, wider than the whole 2.4 m bed), placed centred; the item catalog
contains such items and `ItemManager.isValidPlacement` only checks height. -/
def itemWideC1 : CargoItem :=
  { hasMesh := true, hasBody := true, pendingPhysics := false, pendingReady := false,
    becomingDynamic := false, becomeDynamicReady := false, isFallen := false,
    posX := 0, posY := 2, posZ := 0, localX := 0, localZ := 0,
    halfX := 1.975, halfZ := 0.825 }

/-- Item breaching the right wall while the truck moves at 20 m/s, for the C2
counterexample. -/
def itemBreachedC2 : CargoItem :=
  { hasMesh := true, hasBody := true, pendingPhysics := false, pendingReady := false,
    becomingDynamic := false, becomeDynamicReady := false, isFallen := false,
    posX := 1.6, posY := 2, posZ := 0, localX := 0, localZ := 0,
    halfX := 0.3, halfZ := 0.3 }

/-- Item resting inside the bounds, for the C2 witness. -/
def itemInsideC2 : CargoItem :=
  { hasMesh := true, hasBody := true, pendingPhysics := false, pendingReady := false,
    becomingDynamic := false, becomeDynamicReady := false, isFallen := false,
    posX := 0, posY := 2, posZ := 0, localX := 0, localZ := 0,
    halfX := 0.3, halfZ := 0.3 }

/-- Fallen cargo item used by the C3 witness. -/
def itemFallenC3 : CargoItem :=
  { hasMesh := true, hasBody := true, pendingPhysics := false, pendingReady := false,
    becomingDynamic := false, becomeDynamicReady := false, isFallen := true,
    posX := 9, posY := 0, posZ := 9, localX := 9, localZ := 9,
    halfX := 0.3, halfZ := 0.3 }

/-- Fallen placed item used by the C3 witness. -/
def placedFallenC3 : PlacedItem :=
  { isFallen := true, hasMesh := true, localX := 9, localZ := 9, localY := 0,
    halfHeight := 0.3 }

/-- Lower bound of the clamp. -/
lemma clampSpeed_lower (v : ℚ) : -maxSpeed ≤ clampSpeed v :=
  le_max_left _ _

/-- Upper bound of the clamp. -/
lemma clampSpeed_upper (v : ℚ) : clampSpeed v ≤ maxSpeed * 0.3 := by
  unfold clampSpeed
  exact max_le (by norm_num [maxSpeed]) (min_le_left _ _)

/-- Snapping to zero keeps the clamped speed inside the clamp interval. -/
lemma snap_bounds (P : Prop) [Decidable P] (v : ℚ) (h1 : -maxSpeed ≤ v)
    (h2 : v ≤ maxSpeed * 0.3) :
    -maxSpeed ≤ (if P then (0 : ℚ) else v) ∧ (if P then (0 : ℚ) else v) ≤ maxSpeed * 0.3 := by
  split
  · constructor <;> norm_num [maxSpeed]
  · exact ⟨h1, h2⟩

/-- C4: after the speed-update step of `Truck.updateDriving`, for every
combination of input flags (including auto-brake) and every `dt`, the
committed speed lies in the interval `[-maxSpeed, maxSpeed * 0.3]`
(forward speed is stored negative, reverse is capped at 30% of `maxSpeed`). -/
theorem C4_speed_clamped (autoBrakeTimer speed : ℚ) (k : Keys) (inputEnabled : Bool)
    (currentGear : ℤ) (deltaTime : ℚ) :
    -maxSpeed ≤ (speedUpdate autoBrakeTimer speed k inputEnabled currentGear deltaTime).2.2 ∧
    (speedUpdate autoBrakeTimer speed k inputEnabled currentGear deltaTime).2.2 ≤ maxSpeed * 0.3 := by
  unfold speedUpdate
  dsimp only
  exact snap_bounds _ _ (clampSpeed_lower _) (clampSpeed_upper _)

/-- C10: in every frame of `Truck.updateDriving` in which the auto-brake timer
(after its countdown) is 0 and the post-clamp speed has magnitude below 0.2,
the committed speed is exactly 0 — the snap-to-zero is not conditioned on
auto-brake ever having been active. -/
theorem C10_speed_snap_zero (autoBrakeTimer speed : ℚ) (k : Keys) (inputEnabled : Bool)
    (currentGear : ℤ) (deltaTime : ℚ)
    (htimer : (speedUpdate autoBrakeTimer speed k inputEnabled currentGear deltaTime).1 = 0)
    (hslow : |(speedUpdate autoBrakeTimer speed k inputEnabled currentGear deltaTime).2.1| < 0.2) :
    (speedUpdate autoBrakeTimer speed k inputEnabled currentGear deltaTime).2.2 = 0 := by
  unfold speedUpdate at htimer hslow ⊢
  dsimp only at htimer hslow ⊢
  rw [htimer] at hslow ⊢
  rw [if_pos ⟨by simp, rfl, hslow⟩]

/-- Witness for C10 at a concrete frame: timer 0, speed 0.1, no input,
`dt = 1/60` — the coasting branch reaches 0 and the snap keeps it at 0. -/
theorem C10_speed_snap_zero_witness :
    (speedUpdate 0 0.1 noKeys true 0 (1 / 60)).2.2 = 0 :=
  C10_speed_snap_zero 0 0.1 noKeys true 0 (1 / 60)
    (by norm_num [speedUpdate])
    (by norm_num [speedUpdate, speedAfterInput, effectiveKeys, noKeys, clampSpeed,
      gearAccelFor, deceleration, maxSpeed, min_def, max_def])

/-- Forward-gear selection returns the highest gear in 1..5 whose hysteresis
threshold is met (whenever at least one is met), and the returned gear itself
meets its threshold. -/
lemma forwardGear_spec (cur : ℤ) (a : ℚ) (g : ℕ) (hg1 : 1 ≤ g) (hg5 : g ≤ 5)
    (h : gearThresholdMet cur a g = true) :
    (g : ℤ) ≤ forwardGear cur a ∧ gearThresholdMet cur a (forwardGear cur a).toNat = true := by
  interval_cases g <;>
    simp only [forwardGear, List.foldl] <;>
    split_ifs <;> simp_all

/-- C7: `Truck.updateGear` is a pure hysteresis-respecting function of
(previous gear, speed): gear −1 whenever `speed > 0.5`, gear 0 whenever
`|speed| ≤ 0.5`, and otherwise the highest forward gear in 1..5 whose
threshold is met, using the downshift table when the current gear is already
that high and the upshift table otherwise. -/
theorem C7_gear_characterization (currentGear : ℤ) (speed : ℚ) :
    (speed > 0.5 → updateGear currentGear speed = -1) ∧
    (|speed| ≤ 0.5 → updateGear currentGear speed = 0) ∧
    (speed < -0.5 → ∀ g : ℕ, 1 ≤ g → g ≤ 5 →
      gearThresholdMet currentGear |speed| g = true →
      (g : ℤ) ≤ updateGear currentGear speed ∧
        gearThresholdMet currentGear |speed| (updateGear currentGear speed).toNat = true) := by
  refine ⟨?_, ?_, ?_⟩
  · intro h
    simp [updateGear, h]
  · intro h
    rw [abs_le] at h
    have h1 : ¬ speed > 0.5 := by linarith [h.2]
    have h2 : ¬ speed < -0.5 := by linarith [h.1]
    simp [updateGear, h1, h2]
  · intro h g hg1 hg5 hmet
    have h1 : ¬ speed > 0.5 := by linarith
    simp only [updateGear, if_neg h1, if_pos h]
    exact forwardGear_spec currentGear |speed| g hg1 hg5 hmet

/-- Witness for C7 in the forward case: previous gear 0, speed −30 mph.
Gear 1's upshift threshold (25) is met, so the selected gear is at least 1
and itself meets its threshold. -/
theorem C7_gear_characterization_witness :
    (1 : ℤ) ≤ updateGear 0 (-30) ∧
      gearThresholdMet 0 |(-30 : ℚ)| (updateGear 0 (-30)).toNat = true :=
  (C7_gear_characterization 0 (-30)).2.2 (by norm_num) 1 (by norm_num) (by norm_num)
    (by norm_num [gearThresholdMet, gearSpeeds])

/-- C5 counterexample: with pre-attempt drift angle 0.1, a rotation attempt
that collides commits drift angle 0, not the pre-attempt value — the veto
zeroes `turnRate` and `driftAngle` instead of restoring them, so the committed
state is not bit-for-bit identical to the pre-attempt state in those fields. -/
theorem C5_driftAngle_counterexample :
    (applyTurn (fun _ => 0) (fun _ => 1) keysA false (-10) (1 / 20) turnStateC5).rotation ≠
      turnStateC5.rotation ∧
    (turnStep (fun _ => 0) (fun _ => 1) (fun _ _ _ => true) keysA false (-10) (1 / 20)
        turnStateC5).driftAngle ≠ turnStateC5.driftAngle := by
  norm_num [applyTurn, turnStep, rotationVeto, keysA, turnStateC5, maxSpeed, turnSpeed,
    rearAxleOffset, min_def, max_def]

/-- C5 amended: if the rotation attempt changed the heading and
`checkMeshCollision` reports a collision at the rotated pose, the committed
state restores heading, x and z to their pre-attempt values bit-for-bit, while
`turnRate` and `driftAngle` are reset to zero (not to their pre-attempt
values). -/
theorem C5_rotation_veto_amended (sinq cosq : ℚ → ℚ) (collides : ℚ → ℚ → ℚ → Bool)
    (k : Keys) (autoBraking : Bool) (speed dt : ℚ) (st : TurnState)
    (hrot : (applyTurn sinq cosq k autoBraking speed dt st).rotation ≠ st.rotation)
    (hcol : collides (applyTurn sinq cosq k autoBraking speed dt st).posX
      (applyTurn sinq cosq k autoBraking speed dt st).posZ
      (applyTurn sinq cosq k autoBraking speed dt st).rotation = true) :
    (turnStep sinq cosq collides k autoBraking speed dt st).rotation = st.rotation ∧
    (turnStep sinq cosq collides k autoBraking speed dt st).posX = st.posX ∧
    (turnStep sinq cosq collides k autoBraking speed dt st).posZ = st.posZ ∧
    (turnStep sinq cosq collides k autoBraking speed dt st).turnRate = 0 ∧
    (turnStep sinq cosq collides k autoBraking speed dt st).driftAngle = 0 := by
  unfold turnStep rotationVeto
  rw [if_pos hrot, if_pos hcol]
  exact ⟨rfl, rfl, rfl, rfl, rfl⟩

/-- Witness for C5 amended at the concrete colliding frame of the
counterexample state: the committed heading and position equal their
pre-attempt values and the turn rate and drift angle are zero. -/
theorem C5_rotation_veto_amended_witness :
    (turnStep (fun _ => 0) (fun _ => 1) (fun _ _ _ => true) keysA false (-10) (1 / 20)
        turnStateC5).rotation = turnStateC5.rotation ∧
    (turnStep (fun _ => 0) (fun _ => 1) (fun _ _ _ => true) keysA false (-10) (1 / 20)
        turnStateC5).posX = turnStateC5.posX ∧
    (turnStep (fun _ => 0) (fun _ => 1) (fun _ _ _ => true) keysA false (-10) (1 / 20)
        turnStateC5).posZ = turnStateC5.posZ ∧
    (turnStep (fun _ => 0) (fun _ => 1) (fun _ _ _ => true) keysA false (-10) (1 / 20)
        turnStateC5).turnRate = 0 ∧
    (turnStep (fun _ => 0) (fun _ => 1) (fun _ _ _ => true) keysA false (-10) (1 / 20)
        turnStateC5).driftAngle = 0 :=
  C5_rotation_veto_amended (fun _ => 0) (fun _ => 1) (fun _ _ _ => true) keysA false (-10)
    (1 / 20) turnStateC5
    (by norm_num [applyTurn, keysA, turnStateC5, maxSpeed, turnSpeed, rearAxleOffset,
      min_def, max_def])
    rfl

/-- C9: `Truck.checkMeshCollision` is observationally pure with respect to the
root pose: on the cache-hit path and on the full-test path alike, whatever the
test outcome, the root node's position and rotation after the call equal
their values before the call. -/
theorem C9_pose_restored (hasSceneManager : Bool) (test : ℚ → ℚ → ℚ → Bool) (frameId : ℕ)
    (root : RootPose) (cache : Option CacheEntry) (posX posZ rotY : ℚ) :
    (checkMeshCollision hasSceneManager test frameId root cache posX posZ rotY).2.1 = root := by
  unfold checkMeshCollision checkMeshCollisionFull
  cases cache
  · split_ifs <;> rfl
  · dsimp only
    split_ifs <;> rfl

/-- C6 counterexample: a stuck pose (every perimeter point inside one huge
enclosure wall, `currentCollisions = 36 > 0`) and a candidate move that does
not increase the penetration count (`newCollisions = 36 ≤ 36`), yet
`Truck.checkCollision` rejects the move — refuting the claim that any
non-increasing move is approved.  Only strictly decreasing moves pass. -/
theorem C6_escape_counterexample :
    0 < (collisionCounts [wallAllC6] none 0 0 0 0 1 0).2 ∧
    (collisionCounts [wallAllC6] none 0 0 0 0 1 0).1 ≤
      (collisionCounts [wallAllC6] none 0 0 0 0 1 0).2 ∧
    checkCollision [wallAllC6] none 0 0 0 0 1 0 = true := by
  norm_num [collisionCounts, checkCollision, countWallCollisions, checkPoints, pointWorld,
    inWallBound, wallAllC6, truckHalfWidth, truckFront, truckBack, List.foldl, min_def, max_def]

/-- C6 amended: when the current pose already penetrates walls or houses
(`currentCollisions > 0`), `Truck.checkCollision` approves a candidate move
exactly when it strictly decreases the total penetration count; moves that
maintain or worsen the count are rejected. -/
theorem C6_escape_amended (walls : List WallBound) (houses : Option (List House))
    (newX newZ curX curZ c s : ℚ)
    (hstuck : 0 < (collisionCounts walls houses newX newZ curX curZ c s).2) :
    checkCollision walls houses newX newZ curX curZ c s = false ↔
      (collisionCounts walls houses newX newZ curX curZ c s).1 <
        (collisionCounts walls houses newX newZ curX curZ c s).2 := by
  unfold checkCollision
  rw [if_pos hstuck]
  simp [not_le]

/-- Witness for C6 amended at the stuck pose of the counterexample: the
current pose penetrates, and the approve/reject decision coincides with the
strict-decrease test. -/
theorem C6_escape_amended_witness :
    checkCollision [wallAllC6] none 0 0 0 0 1 0 = false ↔
      (collisionCounts [wallAllC6] none 0 0 0 0 1 0).1 <
        (collisionCounts [wallAllC6] none 0 0 0 0 1 0).2 :=
  C6_escape_amended [wallAllC6] none 0 0 0 0 1 0
    (by norm_num [collisionCounts, countWallCollisions, checkPoints, pointWorld,
      inWallBound, wallAllC6, truckHalfWidth, truckFront, truckBack, List.foldl,
      min_def, max_def])

/-- C8 counterexample: two tracked items transition to fallen in the same
`Game.update` pass, but the fall-out callback body runs exactly once — so a
per-item transition does not produce one invocation per item. -/
theorem C8_callback_counterexample :
    newlyFallenCount floorTopY (cargoWidth / 2) (cargoLength / 2) fallenPairC8 = 2 ∧
    (gameFallCheck floorTopY (cargoWidth / 2) (cargoLength / 2) fallenPairC8 false).2.2 = 1 := by
  norm_num [newlyFallenCount, gameFallCheck, itemFallsNow, fallenPairC8, List.filter,
    floorTopY, cargoWidth, cargoLength]

/-- C8 amended: the fall-out callback body runs exactly once in a pass in
which at least one item newly becomes fallen while the round latch
`fallOutTriggered` is clear, runs zero times once the latch is set, and the
latch is set exactly by such a pass — so the callback fires at most once per
round, on the first frame in which any tracked item becomes fallen. -/
theorem C8_callback_amended (floorY halfW halfL : ℚ) (items : List PlacedItem)
    (trig : Bool) :
    ((gameFallCheck floorY halfW halfL items trig).2.2
        = if 0 < newlyFallenCount floorY halfW halfL items ∧ trig = false then 1 else 0) ∧
    (gameFallCheck floorY halfW halfL items true).2.2 = 0 ∧
    ((gameFallCheck floorY halfW halfL items trig).2.1
        = (trig || decide (0 < newlyFallenCount floorY halfW halfL items))) := by
  cases trig <;> by_cases h : 0 < newlyFallenCount floorY halfW halfL items <;>
    simp [gameFallCheck, h]

/-- The corrected local X always leaves both side edges of an item that fits
the bed (with its margins) inside the walls. -/
lemma enforceNewLocalX_bounds (halfX lX : ℚ) (hfit : halfX + safeMargin ≤ wallInnerX) :
    -wallInnerX ≤ enforceNewLocalX halfX lX - halfX ∧
      enforceNewLocalX halfX lX + halfX ≤ wallInnerX := by
  have hm : (0 : ℚ) < safeMargin := by norm_num [safeMargin]
  unfold enforceNewLocalX
  split_ifs with h1 h2 <;> constructor <;> linarith

/-- The corrected local Z always leaves the front edge behind the front wall. -/
lemma enforceNewLocalZ_front (halfZ lZ : ℚ) :
    wallInnerFrontZ ≤ enforceNewLocalZ halfZ lZ - halfZ := by
  have hm : (0 : ℚ) < safeMargin := by norm_num [safeMargin]
  unfold enforceNewLocalZ
  split_ifs with h1 <;> linarith

/-- Recovering the local X of a point teleported to local offset `(a, b)`. -/
lemma local_of_teleport_x (tx tz c s a b : ℚ) (hcs : c ^ 2 + s ^ 2 = 1) :
    ((tx + a * c - b * s) - tx) * c + ((tz + a * s + b * c) - tz) * s = a := by
  linear_combination a * hcs

/-- Recovering the local Z of a point teleported to local offset `(a, b)`. -/
lemma local_of_teleport_z (tx tz c s a b : ℚ) (hcs : c ^ 2 + s ^ 2 = 1) :
    -((tx + a * c - b * s) - tx) * s + ((tz + a * s + b * c) - tz) * c = b := by
  linear_combination b * hcs

/-- The post-step per-item pass changes only positions, stored locals and the
fallen flag; flags and sizes are preserved. -/
lemma enforceStep_fields (tx tz c s : ℚ) (it : CargoItem) :
    (enforceItemBoundsStep tx tz c s it).hasMesh = it.hasMesh ∧
    (enforceItemBoundsStep tx tz c s it).hasBody = it.hasBody ∧
    (enforceItemBoundsStep tx tz c s it).pendingPhysics = it.pendingPhysics ∧
    (enforceItemBoundsStep tx tz c s it).halfX = it.halfX ∧
    (enforceItemBoundsStep tx tz c s it).halfZ = it.halfZ := by
  unfold enforceItemBoundsStep
  split_ifs <;> simp

/-- An item that is not fallen after the post-step pass was not fallen before
it either (the pass never clears the flag). -/
lemma enforceStep_fallen_rev (tx tz c s : ℚ) (it : CargoItem)
    (h : (enforceItemBoundsStep tx tz c s it).isFallen = false) : it.isFallen = false := by
  cases hf : it.isFallen
  · rfl
  · have heq : enforceItemBoundsStep tx tz c s it = it := by
      unfold enforceItemBoundsStep
      rw [if_pos (Or.inr hf)]
    rw [heq, hf] at h
    exact absurd h (by simp)

/-- Containment after the post-step per-item pass, for an item with a mesh and
a body that is not awaiting body creation and was not fallen. -/
lemma enforceStep_contained (tx tz c s : ℚ) (it : CargoItem) (hcs : c ^ 2 + s ^ 2 = 1)
    (hfit : it.halfX + safeMargin ≤ wallInnerX)
    (hmesh : it.hasMesh = true) (hbody : it.hasBody = true)
    (hpend : it.pendingPhysics = false) (hfall : it.isFallen = false) :
    -wallInnerX ≤ itemLocalX tx tz c s (enforceItemBoundsStep tx tz c s it) -
        (enforceItemBoundsStep tx tz c s it).halfX ∧
    itemLocalX tx tz c s (enforceItemBoundsStep tx tz c s it) +
        (enforceItemBoundsStep tx tz c s it).halfX ≤ wallInnerX ∧
    wallInnerFrontZ ≤ itemLocalZ tx tz c s (enforceItemBoundsStep tx tz c s it) -
        (enforceItemBoundsStep tx tz c s it).halfZ := by
  have hg1 : ¬ (it.hasMesh = false ∨ it.isFallen = true) := by simp [hmesh, hfall]
  have hg2 : ¬ (it.pendingPhysics = true) := by simp [hpend]
  unfold enforceItemBoundsStep
  rw [if_neg hg1, if_neg hg2]
  dsimp only
  by_cases hcor : enforceCorrected tx tz c s it = true
  · have hb : enforceBreachTeleported tx tz c s it = true := by
      simp [enforceBreachTeleported, hcor, hbody]
    rw [if_pos hb, if_pos hb]
    unfold itemLocalX itemLocalZ
    dsimp only
    rw [local_of_teleport_x tx tz c s _ _ hcs, local_of_teleport_z tx tz c s _ _ hcs]
    exact ⟨(enforceNewLocalX_bounds it.halfX _ hfit).1,
      (enforceNewLocalX_bounds it.halfX _ hfit).2, enforceNewLocalZ_front it.halfZ _⟩
  · have hcf : enforceCorrected tx tz c s it = false := by
      cases h : enforceCorrected tx tz c s it
      · rfl
      · exact absurd h hcor
    have hb : ¬ (enforceBreachTeleported tx tz c s it = true) := by
      simp [enforceBreachTeleported, hcf]
    rw [if_neg hb, if_neg hb]
    unfold enforceCorrected at hcf
    simp only [Bool.or_eq_false_iff, decide_eq_false_iff_not, not_lt] at hcf
    obtain ⟨⟨hL, hR⟩, hF⟩ := hcf
    simp only [itemLocalX, itemLocalZ] at hL hR hF ⊢
    exact ⟨by linarith, by linarith, by linarith⟩

/-- A breached item with a body is snapped exactly to the corrected local
offset by the post-step pass. -/
lemma enforceStep_snap (tx tz c s : ℚ) (it : CargoItem) (hcs : c ^ 2 + s ^ 2 = 1)
    (hmesh : it.hasMesh = true) (hbody : it.hasBody = true)
    (hpend : it.pendingPhysics = false) (hfall : it.isFallen = false)
    (hcor : enforceCorrected tx tz c s it = true) :
    itemLocalX tx tz c s (enforceItemBoundsStep tx tz c s it) =
      enforceNewLocalX it.halfX (itemLocalX tx tz c s it) ∧
    itemLocalZ tx tz c s (enforceItemBoundsStep tx tz c s it) =
      enforceNewLocalZ it.halfZ (itemLocalZ tx tz c s it) := by
  have hg1 : ¬ (it.hasMesh = false ∨ it.isFallen = true) := by simp [hmesh, hfall]
  have hg2 : ¬ (it.pendingPhysics = true) := by simp [hpend]
  have hb : enforceBreachTeleported tx tz c s it = true := by
    simp [enforceBreachTeleported, hcor, hbody]
  unfold enforceItemBoundsStep
  rw [if_neg hg1, if_neg hg2]
  dsimp only
  rw [if_pos hb, if_pos hb]
  unfold itemLocalX itemLocalZ
  dsimp only
  rw [local_of_teleport_x tx tz c s _ _ hcs, local_of_teleport_z tx tz c s _ _ hcs]
  exact ⟨rfl, rfl⟩

/-- C1 counterexample: an item wider than the cargo bed (the Dining Table,
half width 1.975 m against the 1.2 m wall half-width) placed centred is
teleported by the post-step pass to the right-wall snap position (the right
check overwrites the left one), is not fallen and keeps its body — yet its
left edge ends 1.65 m beyond the left wall plane.  The claim as stated fails
for loaded items whose footprint does not fit the bed width. -/
theorem C1_containment_counterexample :
    itemWideC1.hasMesh = true ∧ itemWideC1.hasBody = true ∧
    itemWideC1.pendingPhysics = false ∧
    (enforceItemBoundsStep 0 0 1 0 itemWideC1).isFallen = false ∧
    itemLocalX 0 0 1 0 (enforceItemBoundsStep 0 0 1 0 itemWideC1) -
      (enforceItemBoundsStep 0 0 1 0 itemWideC1).halfX < -wallInnerX := by
  norm_num [enforceItemBoundsStep, itemWideC1, itemLocalX, itemLocalZ,
    enforceBreachTeleported, enforceCorrected, enforceNewLocalX, enforceNewLocalZ,
    enforceWayOutside, wallInnerX, wallInnerFrontZ, outerHalfX, outerFrontZ,
    outerBackZ, fallFloorY, cargoWidth, cargoLength, floorTopY, safeMargin, abs_le]

/-- C1 amended: after the post-step pass `Truck.enforceItemBounds`, every
loaded item that is not fallen, has its physics body, is not awaiting body
creation, and whose footprint fits the bed width (half extent plus the 0.1 m
safety margin at most the 1.2 m wall half-width) lies, in truck-local
coordinates, with its left edge no further left than the left wall plane, its
right edge no further right than the right wall plane, and its front edge no
further forward than the front wall plane (the open rear is unconstrained);
and any such item found breaching a wall is snapped to just inside the
breached wall (inner wall minus half extent minus the margin, converted back
to world coordinates) by the teleport.  Items wider than the bed keep the
edge opposite the last-processed wall outside. -/
theorem C1_post_step_containment (tx tz c s : ℚ) (items : List CargoItem) (it : CargoItem)
    (hcs : c ^ 2 + s ^ 2 = 1)
    (hmem : it ∈ enforceItemBounds tx tz c s items)
    (hfit : it.halfX + safeMargin ≤ wallInnerX)
    (hmesh : it.hasMesh = true) (hbody : it.hasBody = true)
    (hpend : it.pendingPhysics = false) (hfall : it.isFallen = false) :
    (-wallInnerX ≤ itemLocalX tx tz c s it - it.halfX ∧
      itemLocalX tx tz c s it + it.halfX ≤ wallInnerX ∧
      wallInnerFrontZ ≤ itemLocalZ tx tz c s it - it.halfZ) ∧
    (∀ it0 : CargoItem, it0.hasMesh = true → it0.hasBody = true →
      it0.pendingPhysics = false → it0.isFallen = false →
      enforceCorrected tx tz c s it0 = true →
      itemLocalX tx tz c s (enforceItemBoundsStep tx tz c s it0) =
        enforceNewLocalX it0.halfX (itemLocalX tx tz c s it0) ∧
      itemLocalZ tx tz c s (enforceItemBoundsStep tx tz c s it0) =
        enforceNewLocalZ it0.halfZ (itemLocalZ tx tz c s it0)) := by
  constructor
  · obtain ⟨it0, hmem0, rfl⟩ := List.mem_map.mp hmem
    have hfields := enforceStep_fields tx tz c s it0
    have hmesh0 : it0.hasMesh = true := by rw [← hfields.1]; exact hmesh
    have hbody0 : it0.hasBody = true := by rw [← hfields.2.1]; exact hbody
    have hpend0 : it0.pendingPhysics = false := by rw [← hfields.2.2.1]; exact hpend
    have hfit0 : it0.halfX + safeMargin ≤ wallInnerX := by rw [← hfields.2.2.2.1]; exact hfit
    have hfall0 := enforceStep_fallen_rev tx tz c s it0 hfall
    exact enforceStep_contained tx tz c s it0 hcs hfit0 hmesh0 hbody0 hpend0 hfall0
  · intro it0 h1 h2 h3 h4 h5
    exact enforceStep_snap tx tz c s it0 hcs h1 h2 h3 h4 h5

/-- Witness for C1 at a concrete pass: the single loaded item breaches the
right wall (edge 1.8 past wall 1.2) and ends the pass teleported to local X
0.8, inside all three wall planes. -/
theorem C1_post_step_containment_witness :
    -wallInnerX ≤ itemLocalX 0 0 1 0 itemBreachedC1Out - itemBreachedC1Out.halfX ∧
    itemLocalX 0 0 1 0 itemBreachedC1Out + itemBreachedC1Out.halfX ≤ wallInnerX ∧
    wallInnerFrontZ ≤ itemLocalZ 0 0 1 0 itemBreachedC1Out - itemBreachedC1Out.halfZ := by
  have hstep : enforceItemBoundsStep 0 0 1 0 itemBreachedC1 = itemBreachedC1Out := by
    norm_num [enforceItemBoundsStep, itemBreachedC1, itemBreachedC1Out, itemLocalX,
      itemLocalZ, enforceBreachTeleported, enforceCorrected, enforceNewLocalX,
      enforceNewLocalZ, enforceWayOutside, wallInnerX, wallInnerFrontZ, outerHalfX,
      outerFrontZ, outerBackZ, fallFloorY, cargoWidth, cargoLength, floorTopY, safeMargin,
      abs_le]
  exact (C1_post_step_containment 0 0 1 0 [itemBreachedC1] itemBreachedC1Out (by norm_num)
    (by simp [enforceItemBounds, hstep])
    (by norm_num [itemBreachedC1Out, itemBreachedC1, safeMargin, wallInnerX, cargoWidth])
    rfl rfl rfl rfl).1

/-- The horizontal velocity relative to the truck never exceeds 8 m/s after
the linear cap. -/
lemma capLinear_horizontal (tvx tvz : ℝ) (v : V3) :
    Real.sqrt (((capLinearVelocityPost tvx tvz v).x - tvx) ^ 2 +
      ((capLinearVelocityPost tvx tvz v).z - tvz) ^ 2) ≤ 8 := by
  unfold capLinearVelocityPost
  dsimp only
  set S := Real.sqrt ((v.x - tvx) ^ 2 + (v.z - tvz) ^ 2) with hS
  by_cases h : S > 8
  · rw [if_pos h, if_pos h]
    have hm : (0 : ℝ) ≤ (v.x - tvx) ^ 2 + (v.z - tvz) ^ 2 := by positivity
    have hsq : S ^ 2 = (v.x - tvx) ^ 2 + (v.z - tvz) ^ 2 := by
      rw [hS]; exact Real.sq_sqrt hm
    have hpos : (0 : ℝ) < S := by linarith
    have hne : S ≠ 0 := ne_of_gt hpos
    have harg : (tvx + (v.x - tvx) * (8 / S) - tvx) ^ 2 +
        (tvz + (v.z - tvz) * (8 / S) - tvz) ^ 2 = 64 := by
      rw [show tvx + (v.x - tvx) * (8 / S) - tvx = (v.x - tvx) * 8 / S by ring,
        show tvz + (v.z - tvz) * (8 / S) - tvz = (v.z - tvz) * 8 / S by ring,
        div_pow, div_pow, div_add_div_same,
        show ((v.x - tvx) * 8) ^ 2 + ((v.z - tvz) * 8) ^ 2 =
          ((v.x - tvx) ^ 2 + (v.z - tvz) ^ 2) * 64 by ring,
        ← hsq, mul_div_assoc, mul_comm]
      exact div_mul_cancel₀ 64 (pow_ne_zero 2 hne)
    rw [harg, show (64 : ℝ) = 8 ^ 2 by norm_num,
      Real.sqrt_sq (by norm_num : (0 : ℝ) ≤ 8)]
  · rw [if_neg h, if_neg h]
    exact le_of_not_lt h

/-- The vertical velocity never exceeds 4 m/s in magnitude after the linear
cap. -/
lemma capLinear_vertical (tvx tvz : ℝ) (v : V3) :
    |(capLinearVelocityPost tvx tvz v).y| ≤ 4 := by
  unfold capLinearVelocityPost
  dsimp only
  by_cases h : |v.y| > 4
  · rw [if_pos h]
    split_ifs <;> norm_num
  · rw [if_neg h]
    exact le_of_not_lt h

/-- The angular speed never exceeds 3 rad/s after the angular cap. -/
lemma capAngular_le (w : V3) :
    Real.sqrt ((capAngularVelocityPost w).x ^ 2 + (capAngularVelocityPost w).y ^ 2 +
      (capAngularVelocityPost w).z ^ 2) ≤ 3 := by
  unfold capAngularVelocityPost
  dsimp only
  set S := Real.sqrt (w.x ^ 2 + w.y ^ 2 + w.z ^ 2) with hS
  by_cases h : S > 3
  · rw [if_pos h]
    dsimp only
    have hm : (0 : ℝ) ≤ w.x ^ 2 + w.y ^ 2 + w.z ^ 2 := by positivity
    have hsq : S ^ 2 = w.x ^ 2 + w.y ^ 2 + w.z ^ 2 := by
      rw [hS]; exact Real.sq_sqrt hm
    have hpos : (0 : ℝ) < S := by linarith
    have hne : S ≠ 0 := ne_of_gt hpos
    have harg : (w.x * (3 / S)) ^ 2 + (w.y * (3 / S)) ^ 2 + (w.z * (3 / S)) ^ 2 = 9 := by
      rw [show w.x * (3 / S) = w.x * 3 / S by ring,
        show w.y * (3 / S) = w.y * 3 / S by ring,
        show w.z * (3 / S) = w.z * 3 / S by ring,
        div_pow, div_pow, div_pow, div_add_div_same, div_add_div_same,
        show (w.x * 3) ^ 2 + (w.y * 3) ^ 2 + (w.z * 3) ^ 2 =
          (w.x ^ 2 + w.y ^ 2 + w.z ^ 2) * 9 by ring,
        ← hsq, mul_div_assoc, mul_comm]
      exact div_mul_cancel₀ 9 (pow_ne_zero 2 hne)
    rw [harg, show (9 : ℝ) = 3 ^ 2 by norm_num,
      Real.sqrt_sq (by norm_num : (0 : ℝ) ≤ 3)]
  · rw [if_neg h]
    exact le_of_not_lt h

/-- C2 counterexample: an item with a body that breaches the right wall while
the truck moves at 20 m/s is teleported with its velocities zeroed, so
immediately after the post-step pass its horizontal velocity relative to the
truck is 20 m/s — above the 8 m/s ceiling — even though the item keeps its
body and is not fallen.  The claim fails for breach-teleported items. -/
theorem C2_rel_velocity_counterexample :
    itemBreachedC2.hasBody = true ∧
    (enforceItemBoundsStep 0 0 1 0 itemBreachedC2).isFallen = false ∧
    Real.sqrt (((enforceItemVelocity 0 0 1 0 itemBreachedC2 20 0 ⟨0, 0, 0⟩
        ⟨0, 0, 0⟩).1.x - 20) ^ 2 +
      ((enforceItemVelocity 0 0 1 0 itemBreachedC2 20 0 ⟨0, 0, 0⟩
        ⟨0, 0, 0⟩).1.z - 0) ^ 2) > 8 := by
  refine ⟨rfl, ?_, ?_⟩
  · norm_num [enforceItemBoundsStep, itemBreachedC2, itemLocalX, itemLocalZ,
      enforceBreachTeleported, enforceCorrected, enforceNewLocalX, enforceNewLocalZ,
      enforceWayOutside, wallInnerX, wallInnerFrontZ, outerHalfX, outerFrontZ,
      outerBackZ, fallFloorY, cargoWidth, cargoLength, floorTopY, safeMargin, abs_le]
  · have hbr : enforceBreachTeleported 0 0 1 0 itemBreachedC2 = true := by
      norm_num [enforceBreachTeleported, enforceCorrected, itemBreachedC2, itemLocalX,
        itemLocalZ, wallInnerX, wallInnerFrontZ, cargoWidth, cargoLength]
    have hskip : ¬ (itemBreachedC2.hasMesh = false ∨ itemBreachedC2.isFallen = true ∨
        itemBreachedC2.pendingPhysics = true ∨ itemBreachedC2.hasBody = false) := by
      simp [itemBreachedC2]
    unfold enforceItemVelocity
    rw [if_neg hskip, if_pos hbr]
    dsimp only
    have harg : ((0 : ℝ) - 20) ^ 2 + ((0 : ℝ) - 0) ^ 2 = 400 := by norm_num
    rw [harg, show (400 : ℝ) = 20 ^ 2 by norm_num,
      Real.sqrt_sq (by norm_num : (0 : ℝ) ≤ 20)]
    norm_num

/-- C2 amended: immediately after the post-step pass, every loaded item with a
mesh and a physics body that is not fallen and not awaiting body creation
either was not breach-teleported — and then its horizontal velocity relative
to the truck is at most 8 m/s, its vertical velocity at most 4 m/s in
magnitude and its angular speed at most 3 rad/s — or it was breach-teleported,
and then its linear and angular velocities are exactly zero (so its velocity
relative to the truck equals the truck's own velocity, which can exceed the
8 m/s ceiling). -/
theorem C2_velocity_caps_amended (tx tz c s : ℚ) (it : CargoItem) (tvx tvz : ℝ)
    (v w : V3)
    (hmesh : it.hasMesh = true) (hfall : it.isFallen = false)
    (hpend : it.pendingPhysics = false) (hbody : it.hasBody = true) :
    (enforceBreachTeleported tx tz c s it = false →
      Real.sqrt (((enforceItemVelocity tx tz c s it tvx tvz v w).1.x - tvx) ^ 2 +
          ((enforceItemVelocity tx tz c s it tvx tvz v w).1.z - tvz) ^ 2) ≤ 8 ∧
      |(enforceItemVelocity tx tz c s it tvx tvz v w).1.y| ≤ 4 ∧
      Real.sqrt ((enforceItemVelocity tx tz c s it tvx tvz v w).2.x ^ 2 +
          (enforceItemVelocity tx tz c s it tvx tvz v w).2.y ^ 2 +
          (enforceItemVelocity tx tz c s it tvx tvz v w).2.z ^ 2) ≤ 3) ∧
    (enforceBreachTeleported tx tz c s it = true →
      (enforceItemVelocity tx tz c s it tvx tvz v w).1 = ⟨0, 0, 0⟩ ∧
      (enforceItemVelocity tx tz c s it tvx tvz v w).2 = ⟨0, 0, 0⟩) := by
  have hskip : ¬ (it.hasMesh = false ∨ it.isFallen = true ∨ it.pendingPhysics = true ∨
      it.hasBody = false) := by simp [hmesh, hfall, hpend, hbody]
  constructor
  · intro hb
    unfold enforceItemVelocity
    rw [if_neg hskip, if_neg (by simp [hb])]
    exact ⟨capLinear_horizontal tvx tvz v, capLinear_vertical tvx tvz v, capAngular_le w⟩
  · intro hb
    unfold enforceItemVelocity
    rw [if_neg hskip, if_pos hb]
    exact ⟨rfl, rfl⟩

/-- Witness for C2 amended at an item resting inside the bounds (no breach)
with over-limit input velocities: the committed velocities respect all three
ceilings. -/
theorem C2_velocity_caps_amended_witness :
    Real.sqrt (((enforceItemVelocity 0 0 1 0 itemInsideC2 3 0 ⟨20, -9, 0⟩
        ⟨4, 0, 0⟩).1.x - 3) ^ 2 +
      ((enforceItemVelocity 0 0 1 0 itemInsideC2 3 0 ⟨20, -9, 0⟩
        ⟨4, 0, 0⟩).1.z - 0) ^ 2) ≤ 8 ∧
    |(enforceItemVelocity 0 0 1 0 itemInsideC2 3 0 ⟨20, -9, 0⟩ ⟨4, 0, 0⟩).1.y| ≤ 4 ∧
    Real.sqrt ((enforceItemVelocity 0 0 1 0 itemInsideC2 3 0 ⟨20, -9, 0⟩ ⟨4, 0, 0⟩).2.x ^ 2 +
        (enforceItemVelocity 0 0 1 0 itemInsideC2 3 0 ⟨20, -9, 0⟩ ⟨4, 0, 0⟩).2.y ^ 2 +
        (enforceItemVelocity 0 0 1 0 itemInsideC2 3 0 ⟨20, -9, 0⟩ ⟨4, 0, 0⟩).2.z ^ 2) ≤ 3 :=
  (C2_velocity_caps_amended 0 0 1 0 itemInsideC2 3 0 ⟨20, -9, 0⟩ ⟨4, 0, 0⟩
      rfl rfl rfl rfl).1
    (by norm_num [enforceBreachTeleported, enforceCorrected, itemInsideC2, itemLocalX,
      itemLocalZ, wallInnerX, wallInnerFrontZ, cargoWidth, cargoLength])

/-- The main branch of the pre-step pass keeps a fallen item fallen and never
moves it: the hard clamp is guarded on the fallen flag. -/
lemma updateItemMain_fallen (tx tz c s : ℚ) (it1 : CargoItem) (h : it1.isFallen = true) :
    (updateItemMain tx tz c s it1).isFallen = true ∧
    (updateItemMain tx tz c s it1).posX = it1.posX ∧
    (updateItemMain tx tz c s it1).posZ = it1.posZ ∧
    (updateItemMain tx tz c s it1).posY = it1.posY := by
  unfold updateItemMain
  by_cases hb : it1.hasBody = true <;> split_ifs <;> simp_all

/-- C3: the fallen flag is monotone across all three passes that touch it —
the pre-step pass `Truck.updateLoadedItems`, the post-step pass
`Truck.enforceItemBounds`, and the fallen-item pass of `Game.update` — and a
fallen item is excluded from the correction machinery: the pre-step pass
leaves a fallen non-settling item's position untouched (the hard clamp is
guarded on the flag), the post-step pass skips a fallen item entirely (no
clamp, cap or teleport), the velocity caps leave a fallen item's velocities
untouched, and the game pass never re-marks or changes a fallen item. -/
theorem C3_fallen_monotone (tx tz c s floorY halfW halfL : ℚ) (it : CargoItem)
    (pit : PlacedItem) (tvx tvz : ℝ) (v w : V3)
    (hit : it.isFallen = true) (hpit : pit.isFallen = true) :
    (updateItemStep tx tz c s it).isFallen = true ∧
    (it.pendingPhysics = false → it.becomingDynamic = false →
      (updateItemStep tx tz c s it).posX = it.posX ∧
      (updateItemStep tx tz c s it).posZ = it.posZ ∧
      (updateItemStep tx tz c s it).posY = it.posY) ∧
    enforceItemBoundsStep tx tz c s it = it ∧
    enforceItemVelocity tx tz c s it tvx tvz v w = (v, w) ∧
    markFallen floorY halfW halfL pit = pit := by
  refine ⟨?_, ?_, ?_, ?_, ?_⟩
  · unfold updateItemStep
    by_cases hm : it.hasMesh = false
    · rw [if_pos hm]; exact hit
    · rw [if_neg hm]
      by_cases hcr : it.hasBody = false ∧ it.pendingPhysics = true ∧ it.pendingReady = true
      · rw [if_pos hcr]
        simpa [updateItemCreate] using hit
      · rw [if_neg hcr]
        dsimp only
        have h1 : (updateItemBecomeDynamic it).isFallen = true := by
          unfold updateItemBecomeDynamic
          split_ifs <;> simp_all
        split_ifs with hcond
        · simpa [updateItemSettle] using h1
        · exact (updateItemMain_fallen tx tz c s _ h1).1
  · intro hp hbd
    unfold updateItemStep
    by_cases hm : it.hasMesh = false
    · rw [if_pos hm]; exact ⟨rfl, rfl, rfl⟩
    · rw [if_neg hm, if_neg (by simp [hp])]
      dsimp only
      have hbd1 : updateItemBecomeDynamic it = it := by
        unfold updateItemBecomeDynamic
        rw [if_neg (by simp [hbd])]
      rw [hbd1, if_neg (by simp [hp, hbd])]
      have h := updateItemMain_fallen tx tz c s it hit
      exact ⟨h.2.1, h.2.2.1, h.2.2.2⟩
  · unfold enforceItemBoundsStep
    rw [if_pos (Or.inr hit)]
  · unfold enforceItemVelocity
    rw [if_pos (Or.inr (Or.inl hit))]
  · unfold markFallen itemFallsNow
    simp [hpit]

/-- Witness for C3 on a concrete fallen item: the pre-step pass keeps it
fallen and leaves its position alone, the post-step pass leaves it untouched,
the velocity caps leave its velocities untouched, and the game pass leaves it
unchanged. -/
theorem C3_fallen_monotone_witness :
    (updateItemStep 0 0 1 0 itemFallenC3).isFallen = true ∧
    (updateItemStep 0 0 1 0 itemFallenC3).posX = itemFallenC3.posX ∧
    enforceItemBoundsStep 0 0 1 0 itemFallenC3 = itemFallenC3 ∧
    enforceItemVelocity 0 0 1 0 itemFallenC3 0 0 ⟨1, 2, 3⟩ ⟨4, 5, 6⟩ =
      (⟨1, 2, 3⟩, ⟨4, 5, 6⟩) ∧
    markFallen floorTopY (cargoWidth / 2) (cargoLength / 2) placedFallenC3 =
      placedFallenC3 := by
  have h := C3_fallen_monotone 0 0 1 0 floorTopY (cargoWidth / 2) (cargoLength / 2)
    itemFallenC3 placedFallenC3 0 0 ⟨1, 2, 3⟩ ⟨4, 5, 6⟩ rfl rfl
  exact ⟨h.1, (h.2.1 rfl rfl).1, h.2.2.1, h.2.2.2.1, h.2.2.2.2⟩

end JunkDash
